import Mathlib

/-!
Shallow embedding of `pandapower/control/controller/trafo/ContinuousTapControl.py`
(class `ContinuousTapControl`), together with theorems settling the specification
claims about it.

The network state is modelled as total maps from element ids to table rows; machine
floats are modelled as rationals, so every arithmetic operation of the source is an
exact operation on `ℚ` (Python `/` on two table scalars is true division, `np.clip`
is `min hi (max x lo)`).
-/

namespace ContinuousTapControl

/-- One row of a transformer table (`net.trafo` or `net.trafo3w`): the fields the
controller reads and writes (`vn_hv_kv`, `vn_mv_kv`, `vn_lv_kv`, the terminal bus
ids, `tap_pos` and `in_service`). -/
structure TrafoRow where
  vn_hv_kv : ℚ
  vn_mv_kv : ℚ
  vn_lv_kv : ℚ
  hv_bus : ℕ
  mv_bus : ℕ
  lv_bus : ℕ
  tap_pos : ℚ
  in_service : Bool

/-- The shared network state: the two transformer tables, the bus table column
`vn_kv`, and the solved-state column `res_bus.vm_pu`. -/
structure Net where
  trafo : ℕ → TrafoRow
  trafo3w : ℕ → TrafoRow
  bus_vn_kv : ℕ → ℚ
  res_bus_vm_pu : ℕ → ℚ

/-- The `trafotype` constructor argument: `"2W"` or `"3W"`. -/
inductive TrafoType where
  | twoW
  | threeW
deriving DecidableEq

/-- The `side` constructor argument. The source compares it against the strings
`"lv"` and `"mv"`; `hv` stands for any other value. -/
inductive Side where
  | hv
  | mv
  | lv
deriving DecidableEq

/-- The table `self.net[self.trafotable]`: the transformer table addressed by the controller,
selected by `trafotype` (`net.trafo` for `"2W"`, `net.trafo3w` for `"3W"`). -/
def trafotable (net : Net) : TrafoType → ℕ → TrafoRow
  | .twoW => net.trafo
  | .threeW => net.trafo3w

/-- The assignment `self.net[self.trafotable].at[tid, "tap_pos"] = v`: point update of the
`tap_pos` field of row `tid` in the table selected by `trafotype`. -/
def writeTapPos (net : Net) : TrafoType → ℕ → ℚ → Net
  | .twoW, tid, v =>
      { net with trafo := fun i =>
          if i = tid then { net.trafo i with tap_pos := v } else net.trafo i }
  | .threeW, tid, v =>
      { net with trafo3w := fun i =>
          if i = tid then { net.trafo3w i with tap_pos := v } else net.trafo3w i }

/-- numpy's `np.clip(x, lo, hi)`, which numpy documents as `min(hi, max(x, lo))` (so for
`lo > hi` the result is `hi`). -/
def npClip (x lo hi : ℚ) : ℚ := min hi (max x lo)

/-- The controller state after a successful construction: the fields set in
`ContinuousTapControl.__init__` (`tid`, `trafotype`, `u_set`, `tol`,
`check_tap_bounds`, `t_nom`) plus the attributes supplied by the `TrafoController`
base abstraction (`controlled_bus`, `tap_step_percent`, `tap_side_coeff`,
`tap_sign`, `tap_min`, `tap_max`) and the mutable cache `tap_pos`. -/
structure Controller where
  tid : ℕ
  trafotype : TrafoType
  u_set : ℚ
  tol : ℚ
  check_tap_bounds : Bool
  t_nom : ℚ
  controlled_bus : ℕ
  tap_step_percent : ℚ
  tap_side_coeff : ℤ
  tap_sign : ℤ
  tap_min : ℚ
  tap_max : ℚ
  tap_pos : ℚ

/-- The method `ContinuousTapControl.control_step`:

    ud = net.res_bus.at[controlled_bus, "vm_pu"] - u_set
    tc = ud / tap_step_percent * 100 / t_nom
    tap_pos += tc * tap_side_coeff * tap_sign
    if check_tap_bounds: tap_pos = np.clip(tap_pos, tap_min, tap_max)
    net[trafotable].at[tid, "tap_pos"] = tap_pos

Returns the updated controller (its refreshed `tap_pos` cache) and the updated
network state. -/
def control_step (c : Controller) (net : Net) : Controller × Net :=
  let ud := net.res_bus_vm_pu c.controlled_bus - c.u_set
  let tc := ud / c.tap_step_percent * 100 / c.t_nom
  let tapMoved := c.tap_pos + tc * (c.tap_side_coeff : ℚ) * (c.tap_sign : ℚ)
  let tapNew :=
    if c.check_tap_bounds then npClip tapMoved c.tap_min c.tap_max else tapMoved
  ({ c with tap_pos := tapNew }, writeTapPos net c.trafotype c.tid tapNew)

/-- The method `ContinuousTapControl.is_converged`: returns `true` at once when the element is
out of service; otherwise refreshes the `tap_pos` cache from the shared table,
computes `difference = 1 - u_set / u`, runs the saturation checks when
`check_tap_bounds`, and falls through to `abs(difference) < tol`. Returns the
updated controller (the cache refresh) and the Boolean verdict. -/
def is_converged (c : Controller) (net : Net) : Controller × Bool :=
  if (trafotable net c.trafotype c.tid).in_service = false then (c, true)
  else
    let u := net.res_bus_vm_pu c.controlled_bus
    let c' := { c with tap_pos := (trafotable net c.trafotype c.tid).tap_pos }
    let difference := 1 - c.u_set / u
    if c.check_tap_bounds then
      if c.tap_side_coeff * c.tap_sign = 1 then
        if u < c.u_set ∧ c'.tap_pos = c.tap_min then (c', true)
        else if u > c.u_set ∧ c'.tap_pos = c.tap_max then (c', true)
        else (c', decide (|difference| < c.tol))
      else if c.tap_side_coeff * c.tap_sign = -1 then
        if u > c.u_set ∧ c'.tap_pos = c.tap_min then (c', true)
        else if u < c.u_set ∧ c'.tap_pos = c.tap_max then (c', true)
        else (c', decide (|difference| < c.tol))
      else (c', decide (|difference| < c.tol))
    else (c', decide (|difference| < c.tol))

/-- The `t_nom` computation of `__init__` (lines 47-58): the `if trafotype == "2W" /
elif side == "lv" / elif side == "mv"` chain. When none of the branches applies
(three-winding with any other side) the source assigns nothing, modelled as
`none`. -/
def compute_t_nom (net : Net) (trafotype : TrafoType) (side : Side) (tid : ℕ) :
    Option ℚ :=
  let t := trafotable net trafotype
  let b := net.bus_vn_kv
  if trafotype = .twoW then
    some ((t tid).vn_lv_kv / (t tid).vn_hv_kv * b (t tid).hv_bus / b (t tid).lv_bus)
  else if side = .lv then
    some ((t tid).vn_lv_kv / (t tid).vn_hv_kv * b (t tid).hv_bus / b (t tid).lv_bus)
  else if side = .mv then
    some ((t tid).vn_mv_kv / (t tid).vn_hv_kv * b (t tid).hv_bus / b (t tid).mv_bus)
  else none

/-- The configuration failure surfaced at construction time. -/
inductive ConfigurationError where
  | invalidTopologySide
deriving DecidableEq

/-- Modelled from the spec: the `TrafoController` base class (not part of the given
source fragment) validates the topology/side combination during `__init__` and
fails with a ConfigurationError for an unsupported combination, e.g. a
three-winding transformer with a side other than `"lv"` or `"mv"`. -/
def validTopologySide : TrafoType → Side → Bool
  | .twoW, _ => true
  | .threeW, .lv => true
  | .threeW, .mv => true
  | .threeW, .hv => false

/-- The attributes resolved by the `TrafoController` base abstraction and handed to
the controller: the controlled bus id and the tap metadata of the transformer. -/
structure TapMeta where
  controlled_bus : ℕ
  tap_step_percent : ℚ
  tap_side_coeff : ℤ
  tap_sign : ℤ
  tap_min : ℚ
  tap_max : ℚ

/-- Construction (`__init__`): validate the topology/side combination (see
`validTopologySide`), compute `t_nom` from the static tables, and assemble the
controller state. The initial `tap_pos` cache mirrors the shared table entry. -/
def mkController (net : Net) (tid : ℕ) (u_set tol : ℚ) (side : Side)
    (trafotype : TrafoType) (check_tap_bounds : Bool) (meta : TapMeta) :
    Except ConfigurationError Controller :=
  if validTopologySide trafotype side then
    match compute_t_nom net trafotype side tid with
    | some tnom =>
        .ok { tid := tid
              trafotype := trafotype
              u_set := u_set
              tol := tol
              check_tap_bounds := check_tap_bounds
              t_nom := tnom
              controlled_bus := meta.controlled_bus
              tap_step_percent := meta.tap_step_percent
              tap_side_coeff := meta.tap_side_coeff
              tap_sign := meta.tap_sign
              tap_min := meta.tap_min
              tap_max := meta.tap_max
              tap_pos := (trafotable net trafotype tid).tap_pos }
    | none => .error .invalidTopologySide
  else .error .invalidTopologySide

/-- Division with an explicit definedness guard, used to express that every `/` the
source performs has a non-zero divisor. -/
def divChecked (a b : ℚ) : Option ℚ := if b = 0 then none else some (a / b)

/-- Variant of `control_step` with every division guarded by `divChecked`: `none` marks a
division by zero. -/
def control_stepChecked (c : Controller) (net : Net) : Option (Controller × Net) := do
  let ud := net.res_bus_vm_pu c.controlled_bus - c.u_set
  let q ← divChecked ud c.tap_step_percent
  let tc ← divChecked (q * 100) c.t_nom
  let tapMoved := c.tap_pos + tc * (c.tap_side_coeff : ℚ) * (c.tap_sign : ℚ)
  let tapNew :=
    if c.check_tap_bounds then npClip tapMoved c.tap_min c.tap_max else tapMoved
  some ({ c with tap_pos := tapNew }, writeTapPos net c.trafotype c.tid tapNew)

/-- Variant of `is_converged` with its division `u_set / u` guarded by `divChecked`: `none`
marks a division by zero. -/
def is_convergedChecked (c : Controller) (net : Net) : Option (Controller × Bool) :=
  if (trafotable net c.trafotype c.tid).in_service = false then some (c, true)
  else do
    let u := net.res_bus_vm_pu c.controlled_bus
    let c' := { c with tap_pos := (trafotable net c.trafotype c.tid).tap_pos }
    let r ← divChecked c.u_set u
    let difference := 1 - r
    if c.check_tap_bounds then
      if c.tap_side_coeff * c.tap_sign = 1 then
        if u < c.u_set ∧ c'.tap_pos = c.tap_min then some (c', true)
        else if u > c.u_set ∧ c'.tap_pos = c.tap_max then some (c', true)
        else some (c', decide (|difference| < c.tol))
      else if c.tap_side_coeff * c.tap_sign = -1 then
        if u > c.u_set ∧ c'.tap_pos = c.tap_min then some (c', true)
        else if u < c.u_set ∧ c'.tap_pos = c.tap_max then some (c', true)
        else some (c', decide (|difference| < c.tol))
      else some (c', decide (|difference| < c.tol))
    else some (c', decide (|difference| < c.tol))

/-- Spec-side clamp to the interval `[lo, hi]`. -/
def clamp (x lo hi : ℚ) : ℚ := max lo (min x hi)

/-- Spec-side saturation condition, stated in the spec's four cases: for
`coeff*sign == +1`, voltage below setpoint at minimum tap or above setpoint at
maximum tap; for `coeff*sign == -1`, voltage above setpoint at minimum tap or
below setpoint at maximum tap. -/
def saturatedSpec (c : Controller) (u tap : ℚ) : Prop :=
  (c.tap_side_coeff * c.tap_sign = 1 ∧
    ((u < c.u_set ∧ tap = c.tap_min) ∨ (u > c.u_set ∧ tap = c.tap_max))) ∨
  (c.tap_side_coeff * c.tap_sign = -1 ∧
    ((u > c.u_set ∧ tap = c.tap_min) ∨ (u < c.u_set ∧ tap = c.tap_max)))

/-- Spec-side nominal-ratio formula:
`(ratedVoltage[farSide] / ratedVoltage[hvSide]) * (busNominal[hvBus] / busNominal[nearSide])`. -/
def tNomSpec (ratedFar ratedHv busHv busNear : ℚ) : ℚ :=
  ratedFar / ratedHv * (busHv / busNear)

/-- Concrete transformer row for witnesses: rated voltages 110/30/20 kV, terminal
buses 0 (hv), 1 (mv), 2 (lv). -/
def exRow : TrafoRow :=
  { vn_hv_kv := 110
    vn_mv_kv := 30
    vn_lv_kv := 20
    hv_bus := 0
    mv_bus := 1
    lv_bus := 2
    tap_pos := 0
    in_service := true }

/-- Concrete bus nominal voltages for witnesses: 110 kV at bus 0, 30 kV at bus 1,
20 kV elsewhere. -/
def exBus : ℕ → ℚ := fun b => if b = 0 then 110 else if b = 1 then 30 else 20

/-- Concrete network for witnesses, parameterised by the stored tap position, the
in-service flag, and the solved per-unit voltage (uniform over buses). -/
def exNet (tap : ℚ) (ins : Bool) (vm : ℚ) : Net :=
  { trafo := fun _ => { exRow with tap_pos := tap, in_service := ins }
    trafo3w := fun _ => { exRow with tap_pos := tap, in_service := ins }
    bus_vn_kv := exBus
    res_bus_vm_pu := fun _ => vm }

/-- Concrete controller for witnesses: two-winding transformer 0, setpoint 1 pu,
tolerance 0.001, bounds enforced, `t_nom = 1`, `tap_step_percent = 1.5`,
`tap_side_coeff = tap_sign = 1`, tap range `[-2, 2]`. -/
def exCtrl : Controller :=
  { tid := 0
    trafotype := .twoW
    u_set := 1
    tol := 1/1000
    check_tap_bounds := true
    t_nom := 1
    controlled_bus := 2
    tap_step_percent := 3/2
    tap_side_coeff := 1
    tap_sign := 1
    tap_min := -2
    tap_max := 2
    tap_pos := 0 }

/-- Concrete base-class metadata for witnesses, matching `exCtrl`. -/
def exMeta : TapMeta :=
  { controlled_bus := 2
    tap_step_percent := 3/2
    tap_side_coeff := 1
    tap_sign := 1
    tap_min := -2
    tap_max := 2 }

/-- Reading back the tap position just written to the addressed table returns the
written value. -/
theorem trafotable_writeTapPos (net : Net) (tt : TrafoType) (tid : ℕ) (v : ℚ) :
    (trafotable (writeTapPos net tt tid v) tt tid).tap_pos = v := by
  cases tt <;> simp [trafotable, writeTapPos]

/-- When the bounds are ordered, numpy's clip agrees with the spec-side clamp. -/
theorem npClip_eq_clamp (x lo hi : ℚ) (h : lo ≤ hi) : npClip x lo hi = clamp x lo hi := by
  unfold npClip clamp
  rcases le_total x lo with h1 | h1 <;> rcases le_total x hi with h2 | h2 <;>
    simp [min_def, max_def] <;> split_ifs <;> linarith

/-- For an in-service element, when bound checking is off or the saturation
condition fails, `is_converged` reports exactly the tolerance comparison
`|1 - u_set / u| < tol`. -/
theorem is_converged_verdict (c : Controller) (net : Net)
    (hins : (trafotable net c.trafotype c.tid).in_service = true)
    (h : c.check_tap_bounds = false ∨
      ¬ saturatedSpec c (net.res_bus_vm_pu c.controlled_bus)
          (trafotable net c.trafotype c.tid).tap_pos) :
    (is_converged c net).2 =
      decide (|1 - c.u_set / net.res_bus_vm_pu c.controlled_bus| < c.tol) := by
  rcases h with hb | hnot
  · simp [is_converged, hins, hb]
  · by_cases hb : c.check_tap_bounds
    · by_cases h1 : c.tap_side_coeff * c.tap_sign = 1
      · have hA : ¬ (net.res_bus_vm_pu c.controlled_bus < c.u_set ∧
            (trafotable net c.trafotype c.tid).tap_pos = c.tap_min) :=
          fun hc => hnot (Or.inl ⟨h1, Or.inl hc⟩)
        have hB : ¬ (net.res_bus_vm_pu c.controlled_bus > c.u_set ∧
            (trafotable net c.trafotype c.tid).tap_pos = c.tap_max) :=
          fun hc => hnot (Or.inl ⟨h1, Or.inr hc⟩)
        simp [is_converged, hins, hb, h1, hA, hB]
      · by_cases h2 : c.tap_side_coeff * c.tap_sign = -1
        · have hA : ¬ (net.res_bus_vm_pu c.controlled_bus > c.u_set ∧
              (trafotable net c.trafotype c.tid).tap_pos = c.tap_min) :=
            fun hc => hnot (Or.inr ⟨h2, Or.inl hc⟩)
          have hB : ¬ (net.res_bus_vm_pu c.controlled_bus < c.u_set ∧
              (trafotable net c.trafotype c.tid).tap_pos = c.tap_max) :=
            fun hc => hnot (Or.inr ⟨h2, Or.inr hc⟩)
          simp [is_converged, hins, hb, h1, h2, hA, hB]
        · simp [is_converged, hins, hb, h1, h2]
    · simp [is_converged, hins, hb]

/-- Claim C6: for an element marked out of service in the shared table,
`is_converged` returns `true` immediately, whatever the measured voltage, stored
tap position, and tolerance are (they are quantified in `c` and `net`). -/
theorem is_converged_out_of_service (c : Controller) (net : Net)
    (h : (trafotable net c.trafotype c.tid).in_service = false) :
    is_converged c net = (c, true) := by
  simp [is_converged, h]

/-- Witness for C6: the out-of-service network makes `is_converged` return `true`
at a voltage far outside the tolerance band. -/
theorem is_converged_out_of_service_witness :
    (trafotable (exNet 0 false (9/10)) exCtrl.trafotype exCtrl.tid).in_service = false ∧
    is_converged exCtrl (exNet 0 false (9/10)) = (exCtrl, true) :=
  ⟨rfl, is_converged_out_of_service exCtrl (exNet 0 false (9/10)) rfl⟩

/-- Claim C7: a three-winding topology combined with a side other than `"lv"` or
`"mv"` makes construction fail with a ConfigurationError; no controller value is
produced. -/
theorem mkController_invalid_topology_side (net : Net) (tid : ℕ) (us tl : ℚ)
    (side : Side) (cb : Bool) (meta : TapMeta)
    (h1 : side ≠ .lv) (h2 : side ≠ .mv) :
    mkController net tid us tl side .threeW cb meta = .error .invalidTopologySide := by
  cases side
  · simp [mkController, validTopologySide]
  · exact absurd rfl h2
  · exact absurd rfl h1

/-- Witness for C7: constructing with topology `"3W"` and side `"hv"` fails. -/
theorem mkController_invalid_topology_side_witness :
    (Side.hv ≠ Side.lv) ∧ (Side.hv ≠ Side.mv) ∧
    mkController (exNet 0 true 1) 0 1 (1/1000) .hv .threeW true exMeta =
      .error .invalidTopologySide :=
  ⟨by decide, by decide,
    mkController_invalid_topology_side (exNet 0 true 1) 0 1 (1/1000) .hv true exMeta
      (by decide) (by decide)⟩

/-- Claim C1: for an in-service element with bound checking on, `is_converged`
returns `true` by saturation exactly in the four spec cases (`coeff*sign = +1`:
voltage below setpoint at minimum tap or above setpoint at maximum tap;
`coeff*sign = -1`: voltage above setpoint at minimum tap or below setpoint at
maximum tap) — in those cases the verdict is `true` for every tolerance, and in
every other case the verdict is exactly the tolerance comparison. -/
theorem is_converged_saturation (c : Controller) (net : Net)
    (hins : (trafotable net c.trafotype c.tid).in_service = true)
    (hb : c.check_tap_bounds = true) :
    (saturatedSpec c (net.res_bus_vm_pu c.controlled_bus)
        (trafotable net c.trafotype c.tid).tap_pos →
      (is_converged c net).2 = true) ∧
    (¬ saturatedSpec c (net.res_bus_vm_pu c.controlled_bus)
        (trafotable net c.trafotype c.tid).tap_pos →
      (is_converged c net).2 =
        decide (|1 - c.u_set / net.res_bus_vm_pu c.controlled_bus| < c.tol)) := by
  constructor
  · intro hsat
    rcases hsat with ⟨h1, hcase⟩ | ⟨h1, hcase⟩
    · rcases hcase with ⟨hu, ht⟩ | ⟨hu, ht⟩
      · simp [is_converged, hins, hb, h1, hu, ht]
      · simp [is_converged, hins, hb, h1, hu, hu.not_lt, ht]
    · rcases hcase with ⟨hu, ht⟩ | ⟨hu, ht⟩
      · simp [is_converged, hins, hb, h1, hu, ht]
      · simp [is_converged, hins, hb, h1, hu, hu.not_lt, ht]
  · exact fun hnot => is_converged_verdict c net hins (Or.inr hnot)

/-- Witness for C1: with `coeff*sign = 1`, the stored tap at the minimum, and the
voltage 0.9 pu below the 1.0 pu setpoint, the verdict is `true` although the
relative deviation 1/9 is far above the tolerance 0.001. -/
theorem is_converged_saturation_witness :
    (trafotable (exNet (-2) true (9/10)) exCtrl.trafotype exCtrl.tid).in_service = true ∧
    exCtrl.check_tap_bounds = true ∧
    (is_converged exCtrl (exNet (-2) true (9/10))).2 = true ∧
    ¬ (|1 - exCtrl.u_set /
        (exNet (-2) true (9/10)).res_bus_vm_pu exCtrl.controlled_bus| < exCtrl.tol) := by
  refine ⟨rfl, rfl, ?_, ?_⟩
  · exact (is_converged_saturation exCtrl (exNet (-2) true (9/10)) rfl rfl).1
      (Or.inl ⟨by decide, Or.inl ⟨by norm_num [exNet, exCtrl], rfl⟩⟩)
  · show ¬ (|1 - (1 : ℚ) / (9/10)| < 1/1000)
    rw [abs_lt]
    norm_num

/-- Claim C3: for an in-service element that is not converged-by-saturation (or has
bound checking off), `is_converged` is `true` exactly when
`|1 - u_set / u| < tol`, the comparison taken literally with no
percent-to-fraction conversion. -/
theorem is_converged_tolerance (c : Controller) (net : Net)
    (hins : (trafotable net c.trafotype c.tid).in_service = true)
    (h : c.check_tap_bounds = false ∨
      ¬ saturatedSpec c (net.res_bus_vm_pu c.controlled_bus)
          (trafotable net c.trafotype c.tid).tap_pos) :
    ((is_converged c net).2 = true ↔
      |1 - c.u_set / net.res_bus_vm_pu c.controlled_bus| < c.tol) := by
  rw [is_converged_verdict c net hins h]
  simp

/-- Witness for C3: with setpoint 1.00, tolerance 0.001 and bound checking off,
measured 1.0009 pu is converged and measured 1.0012 pu is not. -/
theorem is_converged_tolerance_witness :
    (is_converged { exCtrl with check_tap_bounds := false }
      (exNet 0 true (10009/10000))).2 = true ∧
    (is_converged { exCtrl with check_tap_bounds := false }
      (exNet 0 true (10012/10000))).2 = false := by
  constructor
  · exact (is_converged_tolerance { exCtrl with check_tap_bounds := false }
      (exNet 0 true (10009/10000)) rfl (Or.inl rfl)).mpr
      (by show |1 - (1 : ℚ) / (10009/10000)| < 1/1000; rw [abs_lt]; constructor <;> norm_num)
  · have hiff := is_converged_tolerance { exCtrl with check_tap_bounds := false }
      (exNet 0 true (10012/10000)) rfl (Or.inl rfl)
    refine Bool.eq_false_iff.mpr (fun ht => ?_)
    have := hiff.mp ht
    simp only [exCtrl, exNet, abs_lt] at this
    norm_num at this

/-- Claim C2: after `control_step`, the new tap position equals the old one plus
`(u - u_set) / tap_step_percent * 100 / t_nom * tap_side_coeff * tap_sign`,
clamped to `[tap_min, tap_max]` exactly when `check_tap_bounds` is on, and that
same value is what is written to the shared transformer table at `tid`. -/
theorem control_step_update (c : Controller) (net : Net)
    (hmm : c.tap_min ≤ c.tap_max) :
    (control_step c net).1.tap_pos =
      (if c.check_tap_bounds then
        clamp (c.tap_pos + (net.res_bus_vm_pu c.controlled_bus - c.u_set) /
          c.tap_step_percent * 100 / c.t_nom * (c.tap_side_coeff : ℚ) *
          (c.tap_sign : ℚ)) c.tap_min c.tap_max
      else
        c.tap_pos + (net.res_bus_vm_pu c.controlled_bus - c.u_set) /
          c.tap_step_percent * 100 / c.t_nom * (c.tap_side_coeff : ℚ) *
          (c.tap_sign : ℚ)) ∧
    (trafotable (control_step c net).2 c.trafotype c.tid).tap_pos =
      (control_step c net).1.tap_pos := by
  refine ⟨?_, trafotable_writeTapPos net c.trafotype c.tid _⟩
  by_cases hb : c.check_tap_bounds <;>
    simp [control_step, hb, npClip_eq_clamp _ _ _ hmm]

/-- Witness for C2: the update/write-back equation at a concrete controller and
network (voltage 0.98 pu, setpoint 1 pu). -/
theorem control_step_update_witness :
    exCtrl.tap_min ≤ exCtrl.tap_max ∧
    ((control_step exCtrl (exNet 0 true (49/50))).1.tap_pos =
      (if exCtrl.check_tap_bounds then
        clamp (exCtrl.tap_pos + ((exNet 0 true (49/50)).res_bus_vm_pu
          exCtrl.controlled_bus - exCtrl.u_set) /
          exCtrl.tap_step_percent * 100 / exCtrl.t_nom * (exCtrl.tap_side_coeff : ℚ) *
          (exCtrl.tap_sign : ℚ)) exCtrl.tap_min exCtrl.tap_max
      else
        exCtrl.tap_pos + ((exNet 0 true (49/50)).res_bus_vm_pu
          exCtrl.controlled_bus - exCtrl.u_set) /
          exCtrl.tap_step_percent * 100 / exCtrl.t_nom * (exCtrl.tap_side_coeff : ℚ) *
          (exCtrl.tap_sign : ℚ)) ∧
    (trafotable (control_step exCtrl (exNet 0 true (49/50))).2
        exCtrl.trafotype exCtrl.tid).tap_pos =
      (control_step exCtrl (exNet 0 true (49/50))).1.tap_pos) :=
  ⟨by norm_num [exCtrl],
    control_step_update exCtrl (exNet 0 true (49/50)) (by norm_num [exCtrl])⟩

/-- Claim C4: with bound checking on and an ordered tap range, the tap position
after `control_step` lies in `[tap_min, tap_max]`, in memory and in the shared
table (the table holds the same value as the in-memory field). -/
theorem control_step_bounds (c : Controller) (net : Net)
    (hb : c.check_tap_bounds = true) (hmm : c.tap_min ≤ c.tap_max) :
    c.tap_min ≤ (control_step c net).1.tap_pos ∧
    (control_step c net).1.tap_pos ≤ c.tap_max ∧
    (trafotable (control_step c net).2 c.trafotype c.tid).tap_pos =
      (control_step c net).1.tap_pos := by
  refine ⟨?_, ?_, trafotable_writeTapPos net c.trafotype c.tid _⟩ <;>
    simp only [control_step, hb, if_true, npClip]
  · exact le_min hmm (le_max_right _ _)
  · exact min_le_left _ _

/-- Witness for C4: the bounds hold at a concrete controller and network whose
raw correction (4/3 taps upward at 1.02 pu) stays inside the range. -/
theorem control_step_bounds_witness :
    exCtrl.check_tap_bounds = true ∧ exCtrl.tap_min ≤ exCtrl.tap_max ∧
    (exCtrl.tap_min ≤ (control_step exCtrl (exNet 0 true (51/50))).1.tap_pos ∧
    (control_step exCtrl (exNet 0 true (51/50))).1.tap_pos ≤ exCtrl.tap_max ∧
    (trafotable (control_step exCtrl (exNet 0 true (51/50))).2
        exCtrl.trafotype exCtrl.tid).tap_pos =
      (control_step exCtrl (exNet 0 true (51/50))).1.tap_pos) :=
  ⟨rfl, by norm_num [exCtrl],
    control_step_bounds exCtrl (exNet 0 true (51/50)) rfl (by norm_num [exCtrl])⟩

/-- Claim C5: `compute_t_nom` matches the spec formula
`(ratedVoltage[farSide]/ratedVoltage[hvSide]) * (busNominal[hvBus]/busNominal[nearSide])`
with the low-voltage winding as far side for two-winding topology and for
three-winding low regulation, and the medium-voltage winding for three-winding
medium regulation; on the 110/20 kV example network `t_nom = 1`, and with
`tap_step_percent = 1.5` and voltage 0.98 pu (deviation `-0.02`) the tap moves by
exactly `-4/3 ≈ -1.333`. -/
theorem t_nom_matches_spec (net : Net) (tid : ℕ) (side : Side) :
    compute_t_nom net .twoW side tid =
      some (tNomSpec (net.trafo tid).vn_lv_kv (net.trafo tid).vn_hv_kv
        (net.bus_vn_kv (net.trafo tid).hv_bus) (net.bus_vn_kv (net.trafo tid).lv_bus)) ∧
    compute_t_nom net .threeW .lv tid =
      some (tNomSpec (net.trafo3w tid).vn_lv_kv (net.trafo3w tid).vn_hv_kv
        (net.bus_vn_kv (net.trafo3w tid).hv_bus) (net.bus_vn_kv (net.trafo3w tid).lv_bus)) ∧
    compute_t_nom net .threeW .mv tid =
      some (tNomSpec (net.trafo3w tid).vn_mv_kv (net.trafo3w tid).vn_hv_kv
        (net.bus_vn_kv (net.trafo3w tid).hv_bus) (net.bus_vn_kv (net.trafo3w tid).mv_bus)) ∧
    compute_t_nom (exNet 0 true 1) .twoW .lv 0 = some 1 ∧
    (control_step exCtrl (exNet 0 true (49/50))).1.tap_pos =
      exCtrl.tap_pos + (-(4/3)) := by
  refine ⟨?_, ?_, ?_, ?_, ?_⟩
  · simp [compute_t_nom, trafotable, tNomSpec, mul_div_assoc]
  · simp [compute_t_nom, trafotable, tNomSpec, mul_div_assoc]
  · simp [compute_t_nom, trafotable, tNomSpec, mul_div_assoc]
  · norm_num [compute_t_nom, trafotable, exNet, exRow, exBus]
  · norm_num [control_step, npClip, exCtrl, exNet, min_def, max_def]

/-- Counterexample for C8 as stated: at exact equilibrium (`u = u_set = 1`) but
with the stored tap 5 outside the enforced range `[-2, 2]`, `control_step` moves
the tap (it clamps it to 2), so "for every controller state" fails. -/
theorem control_step_equilibrium_counterexample :
    (exNet 0 true 1).res_bus_vm_pu
        { exCtrl with tap_pos := 5 }.controlled_bus =
      { exCtrl with tap_pos := 5 }.u_set ∧
    (control_step { exCtrl with tap_pos := 5 } (exNet 0 true 1)).1.tap_pos ≠
      { exCtrl with tap_pos := 5 }.tap_pos := by
  refine ⟨rfl, ?_⟩
  norm_num [control_step, npClip, exCtrl, exNet, min_def, max_def]

/-- Claim C8, amended: if the measured voltage equals the setpoint exactly and, in
case bounds are enforced, the pre-step tap position already lies within
`[tap_min, tap_max]`, then `control_step` leaves the tap position unchanged, in
memory and in the shared table. -/
theorem control_step_equilibrium (c : Controller) (net : Net)
    (hu : net.res_bus_vm_pu c.controlled_bus = c.u_set)
    (hin : c.check_tap_bounds = true →
      c.tap_min ≤ c.tap_pos ∧ c.tap_pos ≤ c.tap_max) :
    (control_step c net).1.tap_pos = c.tap_pos ∧
    (trafotable (control_step c net).2 c.trafotype c.tid).tap_pos = c.tap_pos := by
  have key : (control_step c net).1.tap_pos = c.tap_pos := by
    by_cases hb : c.check_tap_bounds
    · obtain ⟨h1, h2⟩ := hin hb
      simp [control_step, hu, hb, npClip, max_eq_left h1, min_eq_right h2]
    · simp [control_step, hu, hb]
  refine ⟨key, ?_⟩
  rw [show (control_step c net).2 =
    writeTapPos net c.trafotype c.tid (control_step c net).1.tap_pos from rfl]
  rw [trafotable_writeTapPos, key]

/-- Witness for C8 (amended): at equilibrium with the tap inside the range,
nothing moves. -/
theorem control_step_equilibrium_witness :
    (exNet 0 true 1).res_bus_vm_pu exCtrl.controlled_bus = exCtrl.u_set ∧
    (exCtrl.check_tap_bounds = true →
      exCtrl.tap_min ≤ exCtrl.tap_pos ∧ exCtrl.tap_pos ≤ exCtrl.tap_max) ∧
    ((control_step exCtrl (exNet 0 true 1)).1.tap_pos = exCtrl.tap_pos ∧
    (trafotable (control_step exCtrl (exNet 0 true 1)).2
        exCtrl.trafotype exCtrl.tid).tap_pos = exCtrl.tap_pos) :=
  ⟨rfl, fun _ => by constructor <;> norm_num [exCtrl],
    control_step_equilibrium exCtrl (exNet 0 true 1) rfl
      (fun _ => by constructor <;> norm_num [exCtrl])⟩

/-- Claim C9: once the construction-time guarantees hold (`tap_step_percent ≠ 0`,
`t_nom ≠ 0`) and the solve delivered a valid (non-zero) voltage at the controlled
bus, every division `control_step` and `is_converged` perform is defined: the
division-guarded variants return `some` of exactly what the unguarded code
computes. -/
theorem checked_refines (c : Controller) (net : Net)
    (h1 : c.tap_step_percent ≠ 0) (h2 : c.t_nom ≠ 0)
    (h3 : net.res_bus_vm_pu c.controlled_bus ≠ 0) :
    control_stepChecked c net = some (control_step c net) ∧
    is_convergedChecked c net = some (is_converged c net) := by
  constructor
  · simp [control_stepChecked, control_step, divChecked, h1, h2]
  · simp [is_convergedChecked, is_converged, divChecked, h3, apply_ite some]

/-- Witness for C9: the guarded variants agree with the code at a concrete
controller and network. -/
theorem checked_refines_witness :
    exCtrl.tap_step_percent ≠ 0 ∧ exCtrl.t_nom ≠ 0 ∧
    (exNet 0 true (49/50)).res_bus_vm_pu exCtrl.controlled_bus ≠ 0 ∧
    (control_stepChecked exCtrl (exNet 0 true (49/50)) =
      some (control_step exCtrl (exNet 0 true (49/50))) ∧
    is_convergedChecked exCtrl (exNet 0 true (49/50)) =
      some (is_converged exCtrl (exNet 0 true (49/50)))) :=
  ⟨by norm_num [exCtrl], by norm_num [exCtrl], by norm_num [exNet],
    checked_refines exCtrl (exNet 0 true (49/50))
      (by norm_num [exCtrl]) (by norm_num [exCtrl]) (by norm_num [exNet])⟩

/-- Claim C10: for two-winding topology the computed nominal ratio factor ignores
the side argument — two constructions differing only in side yield the same
`t_nom`, always the low-voltage-winding formula. -/
theorem t_nom_side_independent (net : Net) (tid : ℕ) (us tl : ℚ) (s1 s2 : Side)
    (cb : Bool) (meta : TapMeta) :
    Except.map Controller.t_nom (mkController net tid us tl s1 .twoW cb meta) =
      Except.map Controller.t_nom (mkController net tid us tl s2 .twoW cb meta) ∧
    Except.map Controller.t_nom (mkController net tid us tl s1 .twoW cb meta) =
      .ok ((net.trafo tid).vn_lv_kv / (net.trafo tid).vn_hv_kv *
        net.bus_vn_kv (net.trafo tid).hv_bus /
        net.bus_vn_kv (net.trafo tid).lv_bus) := by
  constructor <;>
    simp [mkController, validTopologySide, compute_t_nom, trafotable, Except.map]

end ContinuousTapControl
